import Mathlib

/-!
Shallow embedding of `aerosandbox/modeling/fitting.py` (`fit_model` and the
`FittedModel` class) from the FastFlow3D repository.

Numeric data (x-data series, y-data, weights, parameter guesses, bounds,
solver outputs) is embedded as rational numbers, standing in for the Python
floats, so that every definition is executable.  Symbolic expressions built on
the optimization environment's decision variables are embedded as a small
expression AST (`E`) with a semantics `E.eval` into the real numbers.

The optimization environment (`Opti`, from `aerosandbox.optimization.opti`,
whose module is not part of the sources) is modelled from the spec: it accepts
scalar/vector variable declarations with an initial guess and optional bounds,
registers inequality constraints, stores a single scalar objective, and a
blocking solve yields per-variable converged values (or fails).  The embedding
records the assembled problem in an `OptiState`, together with an event trace
remembering the order in which variables were created, the model was
evaluated, and a solve was attempted.
-/

/-- Symbolic scalar expressions over the optimization variables, mirroring the
expressions `fit_model` builds with numpy/casadi operators.  `fmax e q` is
`np.fmax(e, q)` (elementwise max with a constant) and `log` is `np.log`. -/
inductive E where
  | c : ℚ → E
  | var : ℕ → E
  | add : E → E → E
  | sub : E → E → E
  | neg : E → E
  | pow : E → ℕ → E
  | log : E → E
  | fmax : E → ℚ → E
deriving DecidableEq

/-- Semantics of an expression under an assignment of real values to the
optimization variables. -/
noncomputable def E.eval (a : ℕ → ℝ) : E → ℝ
  | .c q => (q : ℝ)
  | .var i => a i
  | .add x y => x.eval a + y.eval a
  | .sub x y => x.eval a - y.eval a
  | .neg x => -(x.eval a)
  | .pow x n => (x.eval a) ^ n
  | .log x => Real.log (x.eval a)
  | .fmax x q => max (x.eval a) (q : ℝ)

/-- `sum1` from `aerosandbox.optimization.math` (module not in the sources):
the sum of the entries of a vector, here of a list of symbolic scalars. -/
def sumE (es : List E) : E := es.foldr E.add (E.c 0)

/-- An inequality constraint registered with the optimization environment.
A vectorized casadi constraint such as `y_model >= y_data` is embedded as its
list of elementwise scalar constraints. -/
inductive Constr where
  | ge : E → E → Constr
  | le : E → E → Constr
deriving DecidableEq

/-- Instrumentation events, recording the order of the optimization work that
`fit_model` performs: creation of each decision variable, the (symbolic)
evaluation of the user model, and the solve attempt. -/
inductive Ev where
  | varCreated (idx : ℕ)
  | modelEvaluated
  | solveCalled
deriving DecidableEq

/-- Modelled from the spec: the state of the external optimization
environment (`Opti`, not in the sources) accumulated while `fit_model`
assembles the problem: number of declared scalar decision variables, their
initial guesses and optional (lower, upper) bounds, the registered
constraints, the current objective, plus the instrumentation event trace. -/
structure OptiState where
  nVars : ℕ
  varInits : List ℚ
  varBounds : List (Option ℚ × Option ℚ)
  constraints : List Constr
  objective : Option E
  events : List Ev
deriving DecidableEq

/-- The freshly initialized optimization environment (`opti = Opti()`). -/
def OptiState.init : OptiState :=
  { nVars := 0, varInits := [], varBounds := [], constraints := [],
    objective := none, events := [] }

/-- Modelled from the spec: `opti.variable(init_guess, lower_bound,
upper_bound)` declares one scalar decision variable; returns its index. -/
def newVar (s : OptiState) (init : ℚ) (lb ub : Option ℚ) : ℕ × OptiState :=
  (s.nVars,
   { s with
     nVars := s.nVars + 1,
     varInits := s.varInits ++ [init],
     varBounds := s.varBounds ++ [(lb, ub)],
     events := s.events ++ [Ev.varCreated s.nVars] })

/-- Modelled from the spec: `opti.variable(init_guess, n_vars := count)`
declares a vector of `count` scalar decision variables. -/
def newVars (s : OptiState) (count : ℕ) (init : ℚ) : List ℕ × OptiState :=
  match count with
  | 0 => ([], s)
  | k + 1 =>
    let v := newVar s init none none
    let rest := newVars v.2 k init
    (v.1 :: rest.1, rest.2)

/-- Modelled from the spec: `opti.subject_to(...)` registers constraints. -/
def addConstraints (s : OptiState) (cs : List Constr) : OptiState :=
  { s with constraints := s.constraints ++ cs }

/-- Modelled from the spec: `opti.minimize(e)` sets the scalar objective. -/
def setObjective (s : OptiState) (e : E) : OptiState :=
  { s with objective := some e }

/-- Append one instrumentation event to the trace. -/
def logEvent (s : OptiState) (ev : Ev) : OptiState :=
  { s with events := s.events ++ [ev] }

/-- The x-data argument of `fit_model`: either a dict of named 1-D series or
a bare 1-D series (already flattened; `np.array(...).flatten()` is the
identity on the 1-D rational lists of this embedding). -/
inductive XData where
  | dict : List (String × List ℚ) → XData
  | arr : List ℚ → XData
deriving DecidableEq

/-- The value returned by one call of the user model: `isNone` models the
Python value `None`, `nonArray` models any other value that cannot stand for
a length-n numeric array (on which the elementwise numpy/casadi operators of
`fit_model` raise `TypeError`), and `arr` is a well-formed symbolic array. -/
inductive ModelResult where
  | isNone
  | nonArray
  | arr : List E → ModelResult

/-- The user-supplied model: a callable `model(x, p)` receiving the flattened
x-data and the parameter dict (each parameter bound to its decision
variable), returning its prediction. -/
def Model : Type := XData → List (String × E) → ModelResult

/-- Modelled from the spec: the solution handle returned by a successful
`opti.solve()`; `sol.value` on the variable of index `i` yields its converged
value, or fails (`none`) for that individual variable. -/
def Solution : Type := ℕ → Option ℚ

/-- A solved parameter value: a concrete number, or the `np.NaN` that
`fit_model` substitutes when extraction of that parameter fails. -/
inductive FloatVal where
  | nan
  | num : ℚ → FloatVal
deriving DecidableEq

/-- `sol.value(params[param_name])` wrapped in `try/except`: a failed
extraction degrades to NaN. -/
def extractFV (o : Option ℚ) : FloatVal :=
  match o with
  | some v => FloatVal.num v
  | none => FloatVal.nan

/-- The `FittedModel` object constructed at the end of `fit_model`: the
original model, the solved parameter mapping, and the (flattened) data. -/
structure FittedModel where
  model : Model
  parameters : List (String × FloatVal)
  x_data : XData
  y_data : List ℚ

/-- The errors `fit_model` can raise.  The first four and the two `bad*`
configuration errors are Python `ValueError`s; `modelReturnedNone` and
`modelNonArray` are `TypeError`s; `solveFailed` models a solver failure
propagating out of `opti.solve()`. -/
inductive FitError where
  | unknownBoundParam (name : String)
  | malformedBound
  | nonPositiveY
  | lengthMismatch (key : String) (len n : ℕ)
  | modelReturnedNone
  | modelNonArray
  | badNormType
  | badFitType
  | solveFailed
deriving DecidableEq

/-- Which errors are `ValueError`s raised by `fit_model`'s own validation of
its inputs and configuration strings. -/
def FitError.isValidationError : FitError → Bool
  | .unknownBoundParam _ => true
  | .malformedBound => true
  | .nonPositiveY => true
  | .lengthMismatch _ _ _ => true
  | .badNormType => true
  | .badFitType => true
  | _ => false

/-- Which errors are `TypeError`s (model-contract errors). -/
def FitError.isTypeError : FitError → Bool
  | .modelReturnedNone => true
  | .modelNonArray => true
  | _ => false

/-- The four validation errors raised by the input checks that precede the
creation of the optimization environment. -/
def FitError.isEarlyValidation : FitError → Bool
  | .unknownBoundParam _ => true
  | .malformedBound => true
  | .nonPositiveY => true
  | .lengthMismatch _ _ _ => true
  | _ => false

/-- Python's `str.lower()` (ASCII case folding, which covers every string the
fitting code compares against). -/
def lower (s : String) : String := ⟨s.data.map Char.toLower⟩

/-- The loop over `parameter_bounds.items()` (fitting.py lines 266-273):
the first offending entry raises — an unknown parameter name, or a bound
value that is not a 2-element (lower, upper) pair. -/
def checkBounds (parameter_bounds : List (String × List (Option ℚ)))
    (parameter_guesses : List (String × ℚ)) : Option FitError :=
  match parameter_bounds with
  | [] => none
  | (param_name, v) :: rest =>
    if ¬ (parameter_guesses.any fun g => g.1 = param_name) then
      some (FitError.unknownBoundParam param_name)
    else if v.length ≠ 2 then
      some FitError.malformedBound
    else
      checkBounds rest parameter_guesses

/-- `weights` defaulting (fitting.py lines 257-260): missing weights become
`np.ones(n_datapoints)`. -/
def weightsOrDefault (weights : Option (List ℚ)) (n : ℕ) : List ℚ :=
  match weights with
  | none => List.replicate n 1
  | some ws => ws

/-- `weights /= sum1(weights)` (fitting.py line 261): divide every weight by
the sum of the weights. -/
def normalizeWeights (w : List ℚ) : List ℚ :=
  w.map fun x => x / w.sum

/-- One step of Python's `dict.update`: an existing key is overwritten in
place, a new key is appended. -/
def updateEntry (l : List (String × ℕ)) (k : String) (v : ℕ) :
    List (String × ℕ) :=
  if l.any fun p => p.1 = k then
    l.map fun p => if p.1 = k then (k, v) else p
  else
    l ++ [(k, v)]

/-- The `relevant_inputs` dict (fitting.py lines 281-288), mapping each
series name to the length of that series: `y_data` and `weights` first, then
`relevant_inputs.update(x_data)` for a dict of x-series, or a single entry
keyed `"x_data"` for a bare array. -/
def relevantInputs (ylen wlen : ℕ) (x_data : XData) : List (String × ℕ) :=
  let base := [("y_data", ylen), ("weights", wlen)]
  match x_data with
  | XData.dict entries => entries.foldl (fun acc p => updateEntry acc p.1 p.2.length) base
  | XData.arr xs => base ++ [("x_data", xs.length)]

/-- The length-consistency loop (fitting.py lines 290-295): the first series
whose length differs from `n_datapoints` raises a `ValueError` naming that
series and both lengths. -/
def checkLengths (rel : List (String × ℕ)) (n : ℕ) : Option FitError :=
  match rel with
  | [] => none
  | (key, len) :: rest =>
    if len ≠ n then some (FitError.lengthMismatch key len n) else checkLengths rest n

/-- The parameter-variable creation loop (fitting.py lines 303-314): one
scalar decision variable per entry of `parameter_guesses`, initialized at its
guess, with bounds when `param_name in parameter_bounds`.  Returns the
name-to-variable-index association in guess order. -/
def makeParamVars (parameter_guesses : List (String × ℚ))
    (parameter_bounds : List (String × List (Option ℚ))) (s : OptiState) :
    List (String × ℕ) × OptiState :=
  match parameter_guesses with
  | [] => ([], s)
  | (param_name, param_initial_guess) :: rest =>
    let v :=
      match parameter_bounds.lookup param_name with
      | some b => newVar s param_initial_guess (b.getD 0 none) (b.getD 1 none)
      | none => newVar s param_initial_guess none none
    let tail := makeParamVars rest parameter_bounds v.2
    ((param_name, v.1) :: tail.1, tail.2)

/-- Residual formation (fitting.py lines 321-326).  Returns the pair of the
`y_model` value used downstream (clamped by `np.fmax(y_model, 1e-300)` in the
logspace case) and the elementwise `error` vector: `y_model - y_data`, or
`np.log(y_model) - np.log(y_data)` in logspace. -/
def formResiduals (put_residuals_in_logspace : Bool) (y_model : List E)
    (y_data : List ℚ) : List E × List E :=
  if put_residuals_in_logspace then
    let ym := y_model.map fun e => E.fmax e (1e-300)
    (ym, List.zipWith (fun m v => E.sub (E.log m) (E.log (E.c v))) ym y_data)
  else
    (y_model, List.zipWith (fun m v => E.sub m (E.c v)) y_model y_data)

/-- The residual-norm dispatch (fitting.py lines 329-350), compared through
`residual_norm_type.lower()`: L1 introduces one auxiliary variable per
datapoint with epigraph constraints and sums them; L2 minimizes
`sum1(error ** 2)`; Linf introduces a single auxiliary variable bounding
every residual from above and below; anything else raises. -/
def applyNorm (residual_norm_type : String) (error : List E) (nData : ℕ)
    (s : OptiState) : Except FitError OptiState :=
  if lower residual_norm_type = "l1" then
    let nv := newVars s nData 0
    let abs_error := nv.1.map E.var
    let s1 := addConstraints nv.2
      (List.zipWith (fun a e => Constr.ge a e) abs_error error ++
       List.zipWith (fun a e => Constr.ge a (E.neg e)) abs_error error)
    Except.ok (setObjective s1 (sumE abs_error))
  else if lower residual_norm_type = "l2" then
    Except.ok (setObjective s (sumE (error.map fun e => E.pow e 2)))
  else if lower residual_norm_type = "linf" then
    let nv := newVar s 0 none none
    let linf_value := E.var nv.1
    let s1 := addConstraints nv.2
      (error.map (fun e => Constr.ge linf_value e) ++
       error.map (fun e => Constr.ge linf_value (E.neg e)))
    Except.ok (setObjective s1 linf_value)
  else
    Except.error FitError.badNormType

/-- The fit-type dispatch (fitting.py lines 353-360), compared by exact
string equality: "best" adds nothing, "upper bound" registers the
elementwise constraints `y_model >= y_data`, "lower bound" the reverse, and
anything else raises. -/
def applyFitType (fit_type : String) (y_model : List E) (y_data : List ℚ)
    (s : OptiState) : Except FitError OptiState :=
  if fit_type = "best" then
    Except.ok s
  else if fit_type = "upper bound" then
    Except.ok (addConstraints s (List.zipWith (fun m v => Constr.ge m (E.c v)) y_model y_data))
  else if fit_type = "lower bound" then
    Except.ok (addConstraints s (List.zipWith (fun m v => Constr.le m (E.c v)) y_model y_data))
  else
    Except.error FitError.badFitType

/-- The problem-assembly and solve phase of `fit_model` (fitting.py lines
300-381): create the parameter variables, evaluate the model once at the
data with the variables substituted for parameters, form the residual,
dispatch on the norm and the fit type, solve, and extract the solved
parameters (an extraction failure for an individual parameter degrades to
NaN).  Returns the final optimization-environment state together with the
result. -/
def assemble (model : Model) (x_data : XData) (y_data : List ℚ)
    (parameter_guesses : List (String × ℚ))
    (parameter_bounds : List (String × List (Option ℚ)))
    (residual_norm_type fit_type : String)
    (put_residuals_in_logspace : Bool) (solver : Option Solution) :
    OptiState × Except FitError FittedModel :=
  let mp := makeParamVars parameter_guesses parameter_bounds OptiState.init
  let params := mp.1
  let s2 := logEvent mp.2 Ev.modelEvaluated
  match model x_data (params.map fun p => (p.1, E.var p.2)) with
  | ModelResult.isNone => (s2, Except.error FitError.modelReturnedNone)
  | ModelResult.nonArray => (s2, Except.error FitError.modelNonArray)
  | ModelResult.arr ys =>
    let fr := formResiduals put_residuals_in_logspace ys y_data
    match applyNorm residual_norm_type fr.2 y_data.length s2 with
    | Except.error e => (s2, Except.error e)
    | Except.ok s3 =>
      match applyFitType fit_type fr.1 y_data s3 with
      | Except.error e => (s3, Except.error e)
      | Except.ok s4 =>
        let s5 := logEvent s4 Ev.solveCalled
        match solver with
        | none => (s5, Except.error FitError.solveFailed)
        | some sol =>
          (s5, Except.ok
            { model := model,
              parameters := params.map fun p => (p.1, extractFV (sol p.2)),
              x_data := x_data,
              y_data := y_data })

/-- The embedding of `fit_model` (fitting.py lines 138-381).  Inputs arrive
already flattened (flattening is the identity on the 1-D rational lists used
here).  In source order: weights default and are normalized, the
parameter-bounds dict is validated, logspace positivity of `y_data` is
validated, series lengths are validated, and then the optimization problem
is assembled and solved.  The returned `OptiState` is the final state of the
optimization environment (with the instrumentation trace); the second
component is the `FittedModel` or the error raised. -/
def fit_model (model : Model) (x_data : XData) (y_data : List ℚ)
    (parameter_guesses : List (String × ℚ))
    (parameter_bounds : List (String × List (Option ℚ)))
    (residual_norm_type fit_type : String)
    (weights : Option (List ℚ)) (put_residuals_in_logspace : Bool)
    (solver : Option Solution) :
    OptiState × Except FitError FittedModel :=
  let n := y_data.length
  let w := normalizeWeights (weightsOrDefault weights n)
  match checkBounds parameter_bounds parameter_guesses with
  | some e => (OptiState.init, Except.error e)
  | none =>
    if put_residuals_in_logspace ∧ ∃ y ∈ y_data, y ≤ 0 then
      (OptiState.init, Except.error FitError.nonPositiveY)
    else
      match checkLengths (relevantInputs y_data.length w.length x_data) n with
      | some e => (OptiState.init, Except.error e)
      | none =>
        assemble model x_data y_data parameter_guesses parameter_bounds
          residual_norm_type fit_type put_residuals_in_logspace solver

/-- Modelled from the spec: the weighted L2 objective the spec prescribes,
`sum over i of weight_i * residual_i ^ 2`, for comparison with the
objective the code actually assembles. -/
def spec_weighted_L2_objective (w res : List ℚ) : ℚ :=
  (List.zipWith (fun wi ri => wi * ri ^ 2) w res).sum

/-- A concrete test model: `model(x, p)` returning the constant-in-x pair
`[p, p]` built from its first parameter. -/
def constPairModel : Model := fun _x ps =>
  match ps with
  | (_, e) :: _ => ModelResult.arr [e, e]
  | [] => ModelResult.arr []

/-- A concrete solution handle whose every variable extracts to 1. -/
def solOne : Solution := fun _ => some 1

/-- A concrete test model returning the Python value `None`. -/
def modelNone : Model := fun _ _ => ModelResult.isNone

/-- A concrete solution handle where variable 0 extracts to 3 and every
other extraction fails. -/
def solPartial : Solution := fun i => if i = 0 then some 3 else none

/-- Well-formedness of the x-data as a Python dict whose series names do not
collide with the reserved keys of the internal length table. -/
def xKeysOK : XData → Prop
  | XData.arr _ => True
  | XData.dict entries => (entries.map Prod.fst).Nodup ∧
      ∀ p ∈ entries, p.1 ≠ "y_data" ∧ p.1 ≠ "weights"

/-- The name-to-length table of all supplied series, in check order. -/
def seriesLengths (y_data w : List ℚ) (x_data : XData) :
    List (String × ℕ) :=
  [("y_data", y_data.length), ("weights", w.length)] ++
  (match x_data with
   | XData.dict entries => entries.map fun p => (p.1, p.2.length)
   | XData.arr xs => [("x_data", xs.length)])

/-- Length of a series is unchanged by weight normalization. -/
theorem normalizeWeights_length (w : List ℚ) :
    (normalizeWeights w).length = w.length := by
  simp [normalizeWeights]

/-- Reduction: a bounds-validation failure short-circuits `fit_model`. -/
theorem fit_model_of_checkBounds_some (model : Model) (x_data : XData)
    (y_data : List ℚ) (parameter_guesses : List (String × ℚ))
    (parameter_bounds : List (String × List (Option ℚ)))
    (residual_norm_type fit_type : String) (weights : Option (List ℚ))
    (put_residuals_in_logspace : Bool) (solver : Option Solution)
    (e : FitError)
    (h : checkBounds parameter_bounds parameter_guesses = some e) :
    fit_model model x_data y_data parameter_guesses parameter_bounds
      residual_norm_type fit_type weights put_residuals_in_logspace solver =
      (OptiState.init, Except.error e) := by
  unfold fit_model
  rw [h]

/-- Reduction: a logspace-positivity failure short-circuits `fit_model`. -/
theorem fit_model_of_logspace_nonpos (model : Model) (x_data : XData)
    (y_data : List ℚ) (parameter_guesses : List (String × ℚ))
    (parameter_bounds : List (String × List (Option ℚ)))
    (residual_norm_type fit_type : String) (weights : Option (List ℚ))
    (put_residuals_in_logspace : Bool) (solver : Option Solution)
    (hb : checkBounds parameter_bounds parameter_guesses = none)
    (hl : put_residuals_in_logspace ∧ ∃ y ∈ y_data, y ≤ 0) :
    fit_model model x_data y_data parameter_guesses parameter_bounds
      residual_norm_type fit_type weights put_residuals_in_logspace solver =
      (OptiState.init, Except.error FitError.nonPositiveY) := by
  unfold fit_model
  rw [hb]
  dsimp only
  rw [if_pos hl]

/-- Reduction: a length-validation failure short-circuits `fit_model`. -/
theorem fit_model_of_checkLengths_some (model : Model) (x_data : XData)
    (y_data : List ℚ) (parameter_guesses : List (String × ℚ))
    (parameter_bounds : List (String × List (Option ℚ)))
    (residual_norm_type fit_type : String) (weights : Option (List ℚ))
    (put_residuals_in_logspace : Bool) (solver : Option Solution)
    (e : FitError)
    (hb : checkBounds parameter_bounds parameter_guesses = none)
    (hl : ¬ (put_residuals_in_logspace ∧ ∃ y ∈ y_data, y ≤ 0))
    (hc : checkLengths
      (relevantInputs y_data.length
        (normalizeWeights (weightsOrDefault weights y_data.length)).length
        x_data) y_data.length = some e) :
    fit_model model x_data y_data parameter_guesses parameter_bounds
      residual_norm_type fit_type weights put_residuals_in_logspace solver =
      (OptiState.init, Except.error e) := by
  unfold fit_model
  rw [hb]
  dsimp only
  rw [if_neg hl, hc]

/-- Reduction: once all three validations pass, `fit_model` is `assemble`. -/
theorem fit_model_of_valid (model : Model) (x_data : XData)
    (y_data : List ℚ) (parameter_guesses : List (String × ℚ))
    (parameter_bounds : List (String × List (Option ℚ)))
    (residual_norm_type fit_type : String) (weights : Option (List ℚ))
    (put_residuals_in_logspace : Bool) (solver : Option Solution)
    (hb : checkBounds parameter_bounds parameter_guesses = none)
    (hl : ¬ (put_residuals_in_logspace ∧ ∃ y ∈ y_data, y ≤ 0))
    (hc : checkLengths
      (relevantInputs y_data.length
        (normalizeWeights (weightsOrDefault weights y_data.length)).length
        x_data) y_data.length = none) :
    fit_model model x_data y_data parameter_guesses parameter_bounds
      residual_norm_type fit_type weights put_residuals_in_logspace solver =
      assemble model x_data y_data parameter_guesses parameter_bounds
        residual_norm_type fit_type put_residuals_in_logspace solver := by
  unfold fit_model
  rw [hb]
  dsimp only
  rw [if_neg hl, hc]

/-- The parameter dict handed to the user model by `assemble`: each parameter
name bound to its decision variable. -/
def paramExprs (parameter_guesses : List (String × ℚ))
    (parameter_bounds : List (String × List (Option ℚ))) : List (String × E) :=
  (makeParamVars parameter_guesses parameter_bounds OptiState.init).1.map
    fun p => (p.1, E.var p.2)

/-- The optimization-environment state right after the model evaluation. -/
def stateAfterModelEval (parameter_guesses : List (String × ℚ))
    (parameter_bounds : List (String × List (Option ℚ))) : OptiState :=
  logEvent (makeParamVars parameter_guesses parameter_bounds OptiState.init).2
    Ev.modelEvaluated

/-- Reduction: a model returning `None` makes `assemble` raise the
`TypeError` immediately. -/
theorem assemble_of_model_none (model : Model) (x_data : XData)
    (y_data : List ℚ) (parameter_guesses : List (String × ℚ))
    (parameter_bounds : List (String × List (Option ℚ)))
    (residual_norm_type fit_type : String)
    (put_residuals_in_logspace : Bool) (solver : Option Solution)
    (hm : model x_data (paramExprs parameter_guesses parameter_bounds) =
      ModelResult.isNone) :
    assemble model x_data y_data parameter_guesses parameter_bounds
      residual_norm_type fit_type put_residuals_in_logspace solver =
      (stateAfterModelEval parameter_guesses parameter_bounds,
       Except.error FitError.modelReturnedNone) := by
  unfold assemble
  dsimp only
  rw [show (makeParamVars parameter_guesses parameter_bounds OptiState.init).1.map
      (fun p => (p.1, E.var p.2)) = paramExprs parameter_guesses parameter_bounds from rfl,
    hm]
  rfl

/-- Reduction: a model returning a non-array value makes `assemble` raise
the `TypeError` immediately. -/
theorem assemble_of_model_nonArray (model : Model) (x_data : XData)
    (y_data : List ℚ) (parameter_guesses : List (String × ℚ))
    (parameter_bounds : List (String × List (Option ℚ)))
    (residual_norm_type fit_type : String)
    (put_residuals_in_logspace : Bool) (solver : Option Solution)
    (hm : model x_data (paramExprs parameter_guesses parameter_bounds) =
      ModelResult.nonArray) :
    assemble model x_data y_data parameter_guesses parameter_bounds
      residual_norm_type fit_type put_residuals_in_logspace solver =
      (stateAfterModelEval parameter_guesses parameter_bounds,
       Except.error FitError.modelNonArray) := by
  unfold assemble
  dsimp only
  rw [show (makeParamVars parameter_guesses parameter_bounds OptiState.init).1.map
      (fun p => (p.1, E.var p.2)) = paramExprs parameter_guesses parameter_bounds from rfl,
    hm]
  rfl

/-- Reduction: with a well-formed model value, `assemble` is the norm
dispatch followed by the fit-type dispatch and the solve. -/
theorem assemble_of_model_arr (model : Model) (x_data : XData)
    (y_data : List ℚ) (parameter_guesses : List (String × ℚ))
    (parameter_bounds : List (String × List (Option ℚ)))
    (residual_norm_type fit_type : String)
    (put_residuals_in_logspace : Bool) (solver : Option Solution)
    (ys : List E)
    (hm : model x_data (paramExprs parameter_guesses parameter_bounds) =
      ModelResult.arr ys) :
    assemble model x_data y_data parameter_guesses parameter_bounds
      residual_norm_type fit_type put_residuals_in_logspace solver =
      (match applyNorm residual_norm_type
          (formResiduals put_residuals_in_logspace ys y_data).2 y_data.length
          (stateAfterModelEval parameter_guesses parameter_bounds) with
       | Except.error e => (stateAfterModelEval parameter_guesses parameter_bounds, Except.error e)
       | Except.ok s3 =>
         match applyFitType fit_type
             (formResiduals put_residuals_in_logspace ys y_data).1 y_data s3 with
         | Except.error e => (s3, Except.error e)
         | Except.ok s4 =>
           match solver with
           | none => (logEvent s4 Ev.solveCalled, Except.error FitError.solveFailed)
           | some sol =>
             (logEvent s4 Ev.solveCalled, Except.ok
               { model := model,
                 parameters :=
                   (makeParamVars parameter_guesses parameter_bounds OptiState.init).1.map
                     fun p => (p.1, extractFV (sol p.2)),
                 x_data := x_data,
                 y_data := y_data })) := by
  unfold assemble
  dsimp only
  rw [show (makeParamVars parameter_guesses parameter_bounds OptiState.init).1.map
      (fun p => (p.1, E.var p.2)) = paramExprs parameter_guesses parameter_bounds from rfl,
    hm]
  rfl

/-- The bounds check only raises the two bound-related errors. -/
theorem checkBounds_some_shape (parameter_bounds : List (String × List (Option ℚ)))
    (parameter_guesses : List (String × ℚ)) (e : FitError)
    (h : checkBounds parameter_bounds parameter_guesses = some e) :
    (∃ nm, e = FitError.unknownBoundParam nm) ∨ e = FitError.malformedBound := by
  induction parameter_bounds with
  | nil => simp [checkBounds] at h
  | cons hd tl ih =>
    rw [checkBounds] at h
    split_ifs at h with h1 h2
    all_goals first
      | exact ih h
      | exact Or.inl ⟨hd.1, (Option.some_inj.mp h).symm⟩
      | exact Or.inr (Option.some_inj.mp h).symm

/-- The length check passes exactly when every series has length `n`. -/
theorem checkLengths_eq_none (rel : List (String × ℕ)) (n : ℕ) :
    checkLengths rel n = none ↔ ∀ p ∈ rel, p.2 = n := by
  induction rel with
  | nil => simp [checkLengths]
  | cons hd tl ih =>
    rw [checkLengths]
    split_ifs with h1
    · simp only [false_iff]
      intro hall
      exact h1 (hall hd (List.mem_cons_self hd tl))
    · rw [ih]
      constructor
      · intro hall p hp
        rcases List.mem_cons.mp hp with rfl | hp
        · exact not_not.mp h1
        · exact hall p hp
      · intro hall p hp
        exact hall p (List.mem_cons_of_mem hd hp)

/-- A length-check failure names an offending series from the table. -/
theorem checkLengths_some_shape (rel : List (String × ℕ)) (n : ℕ) (e : FitError)
    (h : checkLengths rel n = some e) :
    ∃ k l, e = FitError.lengthMismatch k l n ∧ (k, l) ∈ rel ∧ l ≠ n := by
  induction rel with
  | nil => simp [checkLengths] at h
  | cons hd tl ih =>
    rw [checkLengths] at h
    split_ifs at h with h1
    · exact ⟨hd.1, hd.2, (Option.some_inj.mp h).symm, List.mem_cons_self hd tl, h1⟩
    · obtain ⟨k, l, he, hm, hl⟩ := ih h
      exact ⟨k, l, he, List.mem_cons_of_mem hd hm, hl⟩

/-- A mismatched series makes the length check fail with a mismatch error. -/
theorem checkLengths_some_of_mismatch (rel : List (String × ℕ)) (n : ℕ)
    (h : ∃ p ∈ rel, p.2 ≠ n) :
    ∃ k l, checkLengths rel n = some (FitError.lengthMismatch k l n) := by
  rcases hc : checkLengths rel n with _ | e
  · obtain ⟨p, hp, hne⟩ := h
    exact absurd ((checkLengths_eq_none rel n).mp hc p hp) hne
  · obtain ⟨k, l, he, -, -⟩ := checkLengths_some_shape rel n e hc
    subst he
    exact ⟨k, l, rfl⟩

/-- The norm dispatch only raises the unknown-norm configuration error. -/
theorem applyNorm_error_shape (residual_norm_type : String) (error : List E)
    (nData : ℕ) (s : OptiState) (e : FitError)
    (h : applyNorm residual_norm_type error nData s = Except.error e) :
    e = FitError.badNormType := by
  rw [applyNorm] at h
  split_ifs at h
  exact (Except.error.injEq _ _ ▸ h).symm

/-- A recognized (case-folded) norm string makes the norm dispatch succeed. -/
theorem applyNorm_ok_of_valid (residual_norm_type : String) (error : List E)
    (nData : ℕ) (s : OptiState)
    (h : lower residual_norm_type = "l1" ∨ lower residual_norm_type = "l2" ∨
      lower residual_norm_type = "linf") :
    ∃ s', applyNorm residual_norm_type error nData s = Except.ok s' := by
  rw [applyNorm]
  rcases h with h | h | h <;> rw [h] <;> simp

/-- An unrecognized norm string makes the norm dispatch raise. -/
theorem applyNorm_error_of_invalid (residual_norm_type : String)
    (error : List E) (nData : ℕ) (s : OptiState)
    (h1 : lower residual_norm_type ≠ "l1")
    (h2 : lower residual_norm_type ≠ "l2")
    (h3 : lower residual_norm_type ≠ "linf") :
    applyNorm residual_norm_type error nData s =
      Except.error FitError.badNormType := by
  rw [applyNorm, if_neg h1, if_neg h2, if_neg h3]

/-- The fit-type dispatch only raises the unknown-fit-type error. -/
theorem applyFitType_error_shape (fit_type : String) (y_model : List E)
    (y_data : List ℚ) (s : OptiState) (e : FitError)
    (h : applyFitType fit_type y_model y_data s = Except.error e) :
    e = FitError.badFitType := by
  rw [applyFitType] at h
  split_ifs at h
  exact (Except.error.injEq _ _ ▸ h).symm

/-- A recognized fit-type string makes the fit-type dispatch succeed. -/
theorem applyFitType_ok_of_valid (fit_type : String) (y_model : List E)
    (y_data : List ℚ) (s : OptiState)
    (h : fit_type = "best" ∨ fit_type = "upper bound" ∨ fit_type = "lower bound") :
    ∃ s', applyFitType fit_type y_model y_data s = Except.ok s' := by
  rw [applyFitType]
  rcases h with h | h | h <;> rw [h] <;> simp

/-- An unrecognized fit-type string makes the fit-type dispatch raise. -/
theorem applyFitType_error_of_invalid (fit_type : String) (y_model : List E)
    (y_data : List ℚ) (s : OptiState)
    (h1 : fit_type ≠ "best") (h2 : fit_type ≠ "upper bound")
    (h3 : fit_type ≠ "lower bound") :
    applyFitType fit_type y_model y_data s = Except.error FitError.badFitType := by
  rw [applyFitType, if_neg h1, if_neg h2, if_neg h3]

/-- Vector variable creation only appends variable-creation events. -/
theorem newVars_events_subset (count : ℕ) (init : ℚ) (s : OptiState) (ev : Ev)
    (h : ev ∈ (newVars s count init).2.events) :
    ev ∈ s.events ∨ ∃ j, ev = Ev.varCreated j := by
  induction count generalizing s with
  | zero => exact Or.inl h
  | succ k ih =>
    rcases ih (newVar s init none none).2 h with h' | h'
    · rcases List.mem_append.mp h' with h'' | h''
      · exact Or.inl h''
      · exact Or.inr ⟨s.nVars, List.mem_singleton.mp h''⟩
    · exact Or.inr h'

/-- Parameter-variable creation only appends variable-creation events. -/
theorem makeParamVars_events_subset (parameter_guesses : List (String × ℚ))
    (parameter_bounds : List (String × List (Option ℚ))) (s : OptiState) (ev : Ev)
    (h : ev ∈ (makeParamVars parameter_guesses parameter_bounds s).2.events) :
    ev ∈ s.events ∨ ∃ j, ev = Ev.varCreated j := by
  induction parameter_guesses generalizing s with
  | nil => exact Or.inl h
  | cons hd tl ih =>
    rw [makeParamVars] at h
    rcases hb : parameter_bounds.lookup hd.1 with _ | b
    all_goals rw [hb] at h
    all_goals dsimp only at h
    all_goals rcases ih _ h with h' | h'
    all_goals try exact Or.inr h'
    all_goals rcases List.mem_append.mp h' with h'' | h''
    all_goals first
      | exact Or.inl h''
      | exact Or.inr ⟨s.nVars, List.mem_singleton.mp h''⟩

/-- Parameter-variable creation does not touch the objective. -/
theorem makeParamVars_objective (parameter_guesses : List (String × ℚ))
    (parameter_bounds : List (String × List (Option ℚ))) (s : OptiState) :
    (makeParamVars parameter_guesses parameter_bounds s).2.objective =
      s.objective := by
  induction parameter_guesses generalizing s with
  | nil => rfl
  | cons hd tl ih =>
    rw [makeParamVars]
    rcases hb : parameter_bounds.lookup hd.1 with _ | b
    all_goals dsimp only
    all_goals rw [ih]
    all_goals rfl

/-- A successful norm dispatch only appends variable-creation events. -/
theorem applyNorm_ok_events (residual_norm_type : String) (error : List E)
    (nData : ℕ) (s s' : OptiState)
    (h : applyNorm residual_norm_type error nData s = Except.ok s') (ev : Ev)
    (hev : ev ∈ s'.events) : ev ∈ s.events ∨ ∃ j, ev = Ev.varCreated j := by
  rw [applyNorm] at h
  split_ifs at h with h1 h2 h3
  · rw [Except.ok.injEq] at h
    subst h
    exact newVars_events_subset nData 0 s ev hev
  · rw [Except.ok.injEq] at h
    subst h
    exact Or.inl hev
  · rw [Except.ok.injEq] at h
    subst h
    rcases List.mem_append.mp hev with h'' | h''
    · exact Or.inl h''
    · exact Or.inr ⟨s.nVars, List.mem_singleton.mp h''⟩

/-- A successful fit-type dispatch leaves the event trace unchanged. -/
theorem applyFitType_ok_events (fit_type : String) (y_model : List E)
    (y_data : List ℚ) (s s' : OptiState)
    (h : applyFitType fit_type y_model y_data s = Except.ok s') :
    s'.events = s.events := by
  rw [applyFitType] at h
  split_ifs at h with h1 h2 h3
  all_goals first
    | exact Except.noConfusion h
    | (rw [Except.ok.injEq] at h
       subst h
       rfl)

/-- Every error escaping the assembly-and-solve phase is a model-contract
error, a configuration error, or a solver failure. -/
theorem assemble_error_shape (model : Model) (x_data : XData) (y_data : List ℚ)
    (parameter_guesses : List (String × ℚ))
    (parameter_bounds : List (String × List (Option ℚ)))
    (residual_norm_type fit_type : String)
    (put_residuals_in_logspace : Bool) (solver : Option Solution) (e : FitError)
    (h : (assemble model x_data y_data parameter_guesses parameter_bounds
        residual_norm_type fit_type put_residuals_in_logspace solver).2 =
      Except.error e) :
    e = FitError.modelReturnedNone ∨ e = FitError.modelNonArray ∨
    e = FitError.badNormType ∨ e = FitError.badFitType ∨
    e = FitError.solveFailed := by
  rcases hm : model x_data (paramExprs parameter_guesses parameter_bounds) with _ | _ | ys
  · rw [assemble_of_model_none _ _ _ _ _ _ _ _ _ hm] at h
    exact Or.inl (Except.error.inj h).symm
  · rw [assemble_of_model_nonArray _ _ _ _ _ _ _ _ _ hm] at h
    exact Or.inr (Or.inl (Except.error.inj h).symm)
  · rw [assemble_of_model_arr _ _ _ _ _ _ _ _ _ _ hm] at h
    rcases hn : applyNorm residual_norm_type
        (formResiduals put_residuals_in_logspace ys y_data).2 y_data.length
        (stateAfterModelEval parameter_guesses parameter_bounds) with en | s3
    · rw [hn] at h
      dsimp only at h
      exact Or.inr (Or.inr (Or.inl
        ((Except.error.inj h).symm.trans
          (applyNorm_error_shape _ _ _ _ _ hn))))
    · rw [hn] at h
      dsimp only at h
      rcases hf : applyFitType fit_type
          (formResiduals put_residuals_in_logspace ys y_data).1 y_data s3 with ef | s4
      · rw [hf] at h
        dsimp only at h
        exact Or.inr (Or.inr (Or.inr (Or.inl
          ((Except.error.inj h).symm.trans
            (applyFitType_error_shape _ _ _ _ _ hf)))))
      · rw [hf] at h
        dsimp only at h
        rcases solver with _ | f
        · exact Or.inr (Or.inr (Or.inr (Or.inr (Except.error.inj h).symm)))
        · exact Except.noConfusion h

/-- Normalized weights sum to 1 whenever the raw sum is nonzero. -/
theorem normalizeWeights_sum (w : List ℚ) (h : w.sum ≠ 0) :
    (normalizeWeights w).sum = 1 := by
  unfold normalizeWeights
  simp only [div_eq_mul_inv]
  rw [List.sum_map_mul_right]
  simp only [List.map_id']
  exact mul_inv_cancel₀ h

/-- C4: for every weight vector with nonzero sum, the normalized weights
used by `fit_model` sum to 1; normalization is invariant under positive
rescaling of the supplied weights; and the default (uniform) weights taken
when none are supplied also normalize to sum 1. -/
theorem normalizeWeights_sum_one_and_scale_invariant (w : List ℚ)
    (h : w.sum ≠ 0) (c : ℚ) (hc : 0 < c) (n : ℕ) (hn : 0 < n) :
    (normalizeWeights w).sum = 1 ∧
    normalizeWeights (w.map fun x => c * x) = normalizeWeights w ∧
    (normalizeWeights (weightsOrDefault none n)).sum = 1 := by
  refine ⟨normalizeWeights_sum w h, ?_, ?_⟩
  · have hs : (w.map fun x => c * x).sum = c * w.sum := by
      rw [List.sum_map_mul_left]
      simp only [List.map_id']
    unfold normalizeWeights
    rw [hs, List.map_map]
    refine List.map_congr_left ?_
    intro x _
    exact mul_div_mul_left x w.sum (ne_of_gt hc)
  · refine normalizeWeights_sum _ ?_
    unfold weightsOrDefault
    rw [List.sum_replicate, nsmul_eq_mul, mul_one]
    exact Nat.cast_ne_zero.mpr (Nat.pos_iff_ne_zero.mp hn)

/-- C4 witness: concrete instance at weights `[2, 6]`, scale `5`, `n = 3`. -/
theorem normalizeWeights_sum_one_and_scale_invariant_witness :
    ([(2 : ℚ), 6].sum ≠ 0) ∧ (0 : ℚ) < 5 ∧ (0 : ℕ) < 3 ∧
    ((normalizeWeights [(2 : ℚ), 6]).sum = 1 ∧
     normalizeWeights ([(2 : ℚ), 6].map fun x => 5 * x) =
       normalizeWeights [(2 : ℚ), 6] ∧
     (normalizeWeights (weightsOrDefault none 3)).sum = 1) :=
  ⟨by norm_num, by norm_num, by norm_num,
   normalizeWeights_sum_one_and_scale_invariant [(2 : ℚ), 6] (by norm_num) 5
     (by norm_num) 3 (by norm_num)⟩

/-- C5: the envelope-constraint step of `fit_model` adds only constraints
and never alters the objective chosen by the norm strategy: "best" adds
nothing, "upper bound" adds exactly the elementwise constraints
`prediction i ≥ y_data i`, "lower bound" adds exactly
`prediction i ≤ y_data i`, and every successful dispatch preserves the
objective and the variable count while only appending constraints. -/
theorem applyFitType_adds_only_constraints (y_model : List E)
    (y_data : List ℚ) (s : OptiState) :
    applyFitType "best" y_model y_data s = Except.ok s ∧
    applyFitType "upper bound" y_model y_data s =
      Except.ok (addConstraints s
        (List.zipWith (fun m v => Constr.ge m (E.c v)) y_model y_data)) ∧
    applyFitType "lower bound" y_model y_data s =
      Except.ok (addConstraints s
        (List.zipWith (fun m v => Constr.le m (E.c v)) y_model y_data)) ∧
    ∀ fit_type s', applyFitType fit_type y_model y_data s = Except.ok s' →
      s'.objective = s.objective ∧ s'.nVars = s.nVars ∧
      ∃ extra, s'.constraints = s.constraints ++ extra := by
  refine ⟨rfl, rfl, rfl, ?_⟩
  intro fit_type s' h
  rw [applyFitType] at h
  split_ifs at h
  all_goals rw [Except.ok.injEq] at h
  all_goals subst h
  · exact ⟨rfl, rfl, [], (List.append_nil _).symm⟩
  · exact ⟨rfl, rfl, _, rfl⟩
  · exact ⟨rfl, rfl, _, rfl⟩

/-- C5 witness: concrete instance at the "upper bound" fit type, a
one-element prediction and datum, and the fresh environment. -/
theorem applyFitType_adds_only_constraints_witness :
    applyFitType "upper bound" [E.var 0] [(3 : ℚ)] OptiState.init =
      Except.ok (addConstraints OptiState.init
        (List.zipWith (fun m v => Constr.ge m (E.c v)) [E.var 0] [(3 : ℚ)])) ∧
    ((addConstraints OptiState.init
        (List.zipWith (fun m v => Constr.ge m (E.c v)) [E.var 0] [(3 : ℚ)])).objective =
      OptiState.init.objective ∧
     (addConstraints OptiState.init
        (List.zipWith (fun m v => Constr.ge m (E.c v)) [E.var 0] [(3 : ℚ)])).nVars =
      OptiState.init.nVars ∧
     ∃ extra, (addConstraints OptiState.init
        (List.zipWith (fun m v => Constr.ge m (E.c v)) [E.var 0] [(3 : ℚ)])).constraints =
      OptiState.init.constraints ++ extra) :=
  ⟨(applyFitType_adds_only_constraints [E.var 0] [(3 : ℚ)] OptiState.init).2.1,
   (applyFitType_adds_only_constraints [E.var 0] [(3 : ℚ)] OptiState.init).2.2.2
     "upper bound" _ rfl⟩

/-- Elementwise semantics of the plain residual `y_model - y_data`. -/
theorem zipWith_sub_eval (a : ℕ → ℝ) (ys : List E) (y : List ℚ) :
    (List.zipWith (fun m v => E.sub m (E.c v)) ys y).map (E.eval a) =
      List.zipWith (fun p v => p - v) (ys.map (E.eval a))
        (y.map fun q => (q : ℝ)) := by
  induction ys generalizing y with
  | nil => simp
  | cons hd tl ih =>
    cases y with
    | nil => simp
    | cons yh yt => simp [E.eval, ih]

/-- Elementwise semantics of the logspace residual. -/
theorem zipWith_log_eval (a : ℕ → ℝ) (ys : List E) (y : List ℚ) :
    (List.zipWith (fun m v => E.sub (E.log m) (E.log (E.c v)))
        (ys.map fun e => E.fmax e (1e-300)) y).map (E.eval a) =
      List.zipWith
        (fun p v => Real.log (max p ((1e-300 : ℚ) : ℝ)) - Real.log v)
        (ys.map (E.eval a)) (y.map fun q => (q : ℝ)) := by
  induction ys generalizing y with
  | nil => simp
  | cons hd tl ih =>
    cases y with
    | nil => simp
    | cons yh yt => simp [E.eval, ih]

/-- C6: the residual formed by `fit_model` is, elementwise,
`prediction - y_data` outside logspace, and
`log (max prediction eps) - log y_data` with the positive floor
`eps = 1e-300` in logspace. -/
theorem formResiduals_formula (y_model : List E) (y_data : List ℚ)
    (a : ℕ → ℝ) :
    ((formResiduals false y_model y_data).2.map (E.eval a) =
      List.zipWith (fun p v => p - v) (y_model.map (E.eval a))
        (y_data.map fun q => (q : ℝ))) ∧
    ((formResiduals true y_model y_data).2.map (E.eval a) =
      List.zipWith
        (fun p v => Real.log (max p ((1e-300 : ℚ) : ℝ)) - Real.log v)
        (y_model.map (E.eval a)) (y_data.map fun q => (q : ℝ))) ∧
    (0 : ℝ) < ((1e-300 : ℚ) : ℝ) := by
  exact ⟨zipWith_sub_eval a y_model y_data, zipWith_log_eval a y_model y_data,
    Rat.cast_pos.mpr (by norm_num)⟩

/-- C1 (code bug): at weights `[1, 0]`, data `y = [0, 1]`, and the model
`p ↦ [p, p]`, the objective `fit_model` assembles under the default "L2"
norm is the unweighted `sum1(error ** 2)`: it evaluates to 1 at `p = 0`,
whereas the weighted objective the spec prescribes evaluates to 0 there.
The normalized weight vector is computed but never enters the objective. -/
theorem fit_model_L2_objective_ignores_weights :
    (fit_model constPairModel (XData.arr [0, 1]) [0, 1] [("p", 0)] [] "L2"
        "best" (some [1, 0]) false (some solOne)).1.objective =
      some (sumE [E.pow (E.sub (E.var 0) (E.c 0)) 2,
                  E.pow (E.sub (E.var 0) (E.c 1)) 2]) ∧
    E.eval (fun _ => 0)
      (sumE [E.pow (E.sub (E.var 0) (E.c 0)) 2,
             E.pow (E.sub (E.var 0) (E.c 1)) 2]) = 1 ∧
    spec_weighted_L2_objective (normalizeWeights [1, 0]) [0 - 0, 0 - 1] = 0 ∧
    (1 : ℚ) ≠
      spec_weighted_L2_objective (normalizeWeights [1, 0]) [0 - 0, 0 - 1] := by
  have h3 :
      spec_weighted_L2_objective (normalizeWeights [1, 0]) [0 - 0, 0 - 1] = 0 := by
    norm_num [spec_weighted_L2_objective, normalizeWeights]
  refine ⟨rfl, ?_, h3, ?_⟩
  · norm_num [sumE, E.eval]
  · rw [h3]
    norm_num

/-- No solve event has happened by the time the model has been evaluated. -/
theorem not_solve_stateAfterModelEval (parameter_guesses : List (String × ℚ))
    (parameter_bounds : List (String × List (Option ℚ))) :
    Ev.solveCalled ∉ (stateAfterModelEval parameter_guesses parameter_bounds).events := by
  intro hmem
  rcases List.mem_append.mp hmem with h1 | h1
  · rcases makeParamVars_events_subset parameter_guesses parameter_bounds
      OptiState.init _ h1 with h2 | ⟨j, h2⟩
    · exact absurd h2 (List.not_mem_nil _)
    · exact Ev.noConfusion h2
  · exact Ev.noConfusion (List.mem_singleton.mp h1)

/-- No solve event has happened right after a successful norm dispatch. -/
theorem not_solve_applyNorm_ok (residual_norm_type : String) (error : List E)
    (nData : ℕ) (parameter_guesses : List (String × ℚ))
    (parameter_bounds : List (String × List (Option ℚ))) (s3 : OptiState)
    (hn : applyNorm residual_norm_type error nData
      (stateAfterModelEval parameter_guesses parameter_bounds) = Except.ok s3) :
    Ev.solveCalled ∉ s3.events := by
  intro hmem
  rcases applyNorm_ok_events _ _ _ _ _ hn _ hmem with h1 | ⟨j, h2⟩
  · exact not_solve_stateAfterModelEval parameter_guesses parameter_bounds h1
  · exact Ev.noConfusion h2

/-- C2 counterexample: with the unknown norm string "bogus" (and otherwise
valid inputs), `fit_model` raises the unknown-norm validation error only
after a decision variable has been created and the model has been
evaluated, so not every validation error precedes all optimization work. -/
theorem fit_model_norm_error_after_variable_creation :
    (fit_model constPairModel (XData.arr [0, 1]) [0, 1] [("p", 0)] [] "bogus"
        "best" none false (some solOne)).2 =
      Except.error FitError.badNormType ∧
    FitError.isValidationError FitError.badNormType = true ∧
    (fit_model constPairModel (XData.arr [0, 1]) [0, 1] [("p", 0)] [] "bogus"
        "best" none false (some solOne)).1.events =
      [Ev.varCreated 0, Ev.modelEvaluated] :=
  ⟨rfl, rfl, rfl⟩

/-- C2 (amended): every validation error raised by `fit_model` precedes the
solve attempt, and the four data-validation errors (unknown bounds key,
malformed bound, non-positive y-data under logspace, length mismatch) are
raised before any optimization work at all — with an empty event trace —
while the unknown-norm and unknown-fit-type configuration errors may be
raised only after decision variables are created and the model evaluated. -/
theorem fit_model_validation_errors_precede_solve (model : Model)
    (x_data : XData) (y_data : List ℚ)
    (parameter_guesses : List (String × ℚ))
    (parameter_bounds : List (String × List (Option ℚ)))
    (residual_norm_type fit_type : String) (weights : Option (List ℚ))
    (put_residuals_in_logspace : Bool) (solver : Option Solution)
    (e : FitError)
    (hE : (fit_model model x_data y_data parameter_guesses parameter_bounds
        residual_norm_type fit_type weights put_residuals_in_logspace
        solver).2 = Except.error e)
    (hV : e.isValidationError = true) :
    Ev.solveCalled ∉ (fit_model model x_data y_data parameter_guesses
        parameter_bounds residual_norm_type fit_type weights
        put_residuals_in_logspace solver).1.events ∧
    (e.isEarlyValidation = true →
      (fit_model model x_data y_data parameter_guesses parameter_bounds
        residual_norm_type fit_type weights put_residuals_in_logspace
        solver).1.events = []) := by
  rcases hb : checkBounds parameter_bounds parameter_guesses with _ | e0
  case some =>
    rw [fit_model_of_checkBounds_some _ _ _ _ _ _ _ _ _ _ e0 hb] at hE ⊢
    exact ⟨List.not_mem_nil _, fun _ => rfl⟩
  case none =>
  by_cases hl : (put_residuals_in_logspace : Prop) ∧ ∃ y ∈ y_data, y ≤ 0
  · rw [fit_model_of_logspace_nonpos _ _ _ _ _ _ _ _ _ _ hb hl] at hE ⊢
    exact ⟨List.not_mem_nil _, fun _ => rfl⟩
  · rcases hc : checkLengths
        (relevantInputs y_data.length
          (normalizeWeights (weightsOrDefault weights y_data.length)).length
          x_data) y_data.length with _ | e1
    swap
    · rw [fit_model_of_checkLengths_some _ _ _ _ _ _ _ _ _ _ e1 hb hl hc] at hE ⊢
      exact ⟨List.not_mem_nil _, fun _ => rfl⟩
    rw [fit_model_of_valid _ _ _ _ _ _ _ _ _ _ hb hl hc] at hE ⊢
    rcases hm : model x_data (paramExprs parameter_guesses parameter_bounds)
      with _ | _ | ys
    · rw [assemble_of_model_none _ _ _ _ _ _ _ _ _ hm] at hE
      cases Except.error.inj hE
      exact absurd hV (by decide)
    · rw [assemble_of_model_nonArray _ _ _ _ _ _ _ _ _ hm] at hE
      cases Except.error.inj hE
      exact absurd hV (by decide)
    · rw [assemble_of_model_arr _ _ _ _ _ _ _ _ _ _ hm] at hE ⊢
      rcases hn : applyNorm residual_norm_type
          (formResiduals put_residuals_in_logspace ys y_data).2 y_data.length
          (stateAfterModelEval parameter_guesses parameter_bounds) with en | s3
      · rw [hn] at hE
        dsimp only at hE ⊢
        have hshape := applyNorm_error_shape _ _ _ _ _ hn
        cases Except.error.inj hE
        subst hshape
        exact ⟨not_solve_stateAfterModelEval _ _, fun hEarly => absurd hEarly (by decide)⟩
      · rw [hn] at hE
        dsimp only at hE ⊢
        rcases hf : applyFitType fit_type
            (formResiduals put_residuals_in_logspace ys y_data).1 y_data s3
          with ef | s4
        · rw [hf] at hE
          dsimp only at hE ⊢
          have hshape := applyFitType_error_shape _ _ _ _ _ hf
          cases Except.error.inj hE
          subst hshape
          exact ⟨not_solve_applyNorm_ok _ _ _ _ _ _ hn,
            fun hEarly => absurd hEarly (by decide)⟩
        · rw [hf] at hE
          dsimp only at hE ⊢
          rcases solver with _ | f
          · dsimp only at hE
            cases Except.error.inj hE
            exact absurd hV (by decide)
          · dsimp only at hE
            exact Except.noConfusion hE

/-- C2 witness: at a concrete input whose bounds dict names the unknown
parameter "q", the validation error is raised with an empty event trace. -/
theorem fit_model_validation_errors_precede_solve_witness :
    (fit_model constPairModel (XData.arr [0, 1]) [0, 1] [("p", 0)]
        [("q", [none, none])] "L2" "best" none false (some solOne)).2 =
      Except.error (FitError.unknownBoundParam "q") ∧
    FitError.isValidationError (FitError.unknownBoundParam "q") = true ∧
    (Ev.solveCalled ∉ (fit_model constPairModel (XData.arr [0, 1]) [0, 1]
        [("p", 0)] [("q", [none, none])] "L2" "best" none false
        (some solOne)).1.events ∧
     (FitError.isEarlyValidation (FitError.unknownBoundParam "q") = true →
      (fit_model constPairModel (XData.arr [0, 1]) [0, 1] [("p", 0)]
        [("q", [none, none])] "L2" "best" none false
        (some solOne)).1.events = [])) :=
  ⟨rfl, rfl,
   fit_model_validation_errors_precede_solve constPairModel
     (XData.arr [0, 1]) [0, 1] [("p", 0)] [("q", [none, none])] "L2" "best"
     none false (some solOne) (FitError.unknownBoundParam "q") rfl rfl⟩

/-- C3: a model whose evaluation at the normalized x-data returns an
ill-formed result — `None` or a non-array value — makes `fit_model` fail
with a type error before problem assembly completes: no objective has been
set and no solve has been attempted. -/
theorem fit_model_illformed_model_type_error (model : Model) (x_data : XData)
    (y_data : List ℚ) (parameter_guesses : List (String × ℚ))
    (parameter_bounds : List (String × List (Option ℚ)))
    (residual_norm_type fit_type : String) (weights : Option (List ℚ))
    (put_residuals_in_logspace : Bool) (solver : Option Solution)
    (hb : checkBounds parameter_bounds parameter_guesses = none)
    (hl : ¬ (put_residuals_in_logspace ∧ ∃ y ∈ y_data, y ≤ 0))
    (hc : checkLengths
      (relevantInputs y_data.length
        (normalizeWeights (weightsOrDefault weights y_data.length)).length
        x_data) y_data.length = none)
    (hm : model x_data (paramExprs parameter_guesses parameter_bounds) =
        ModelResult.isNone ∨
      model x_data (paramExprs parameter_guesses parameter_bounds) =
        ModelResult.nonArray) :
    (∃ e, (fit_model model x_data y_data parameter_guesses parameter_bounds
        residual_norm_type fit_type weights put_residuals_in_logspace
        solver).2 = Except.error e ∧ e.isTypeError = true) ∧
    Ev.solveCalled ∉ (fit_model model x_data y_data parameter_guesses
        parameter_bounds residual_norm_type fit_type weights
        put_residuals_in_logspace solver).1.events ∧
    (fit_model model x_data y_data parameter_guesses parameter_bounds
        residual_norm_type fit_type weights put_residuals_in_logspace
        solver).1.objective = none := by
  rw [fit_model_of_valid _ _ _ _ _ _ _ _ _ _ hb hl hc]
  rcases hm with hm | hm
  · rw [assemble_of_model_none _ _ _ _ _ _ _ _ _ hm]
    exact ⟨⟨FitError.modelReturnedNone, rfl, rfl⟩,
      not_solve_stateAfterModelEval _ _,
      makeParamVars_objective parameter_guesses parameter_bounds OptiState.init⟩
  · rw [assemble_of_model_nonArray _ _ _ _ _ _ _ _ _ hm]
    exact ⟨⟨FitError.modelNonArray, rfl, rfl⟩,
      not_solve_stateAfterModelEval _ _,
      makeParamVars_objective parameter_guesses parameter_bounds OptiState.init⟩

/-- C3 witness: concrete instance with a model that returns `None`. -/
theorem fit_model_illformed_model_type_error_witness :
    checkBounds [] [("p", 0)] = none ∧
    ¬ ((false : Bool) ∧ ∃ y ∈ [(0 : ℚ)], y ≤ 0) ∧
    checkLengths
      (relevantInputs [(0 : ℚ)].length
        (normalizeWeights (weightsOrDefault none [(0 : ℚ)].length)).length
        (XData.arr [0])) [(0 : ℚ)].length = none ∧
    ((∃ e, (fit_model modelNone (XData.arr [0]) [0] [("p", 0)] [] "L2" "best"
        none false (some solOne)).2 = Except.error e ∧ e.isTypeError = true) ∧
     Ev.solveCalled ∉ (fit_model modelNone (XData.arr [0]) [0] [("p", 0)] []
        "L2" "best" none false (some solOne)).1.events ∧
     (fit_model modelNone (XData.arr [0]) [0] [("p", 0)] [] "L2" "best" none
        false (some solOne)).1.objective = none) :=
  ⟨rfl, by simp,  rfl,
   fit_model_illformed_model_type_error modelNone (XData.arr [0]) [0]
     [("p", 0)] [] "L2" "best" none false (some solOne) rfl (by simp) rfl
     (Or.inl rfl)⟩

/-- Once the bounds and logspace validations pass, no later stage of
`fit_model` can produce the non-positive-y error. -/
theorem fit_model_ne_nonPositiveY (model : Model) (x_data : XData)
    (y_data : List ℚ) (parameter_guesses : List (String × ℚ))
    (parameter_bounds : List (String × List (Option ℚ)))
    (residual_norm_type fit_type : String) (weights : Option (List ℚ))
    (put_residuals_in_logspace : Bool) (solver : Option Solution)
    (hb : checkBounds parameter_bounds parameter_guesses = none)
    (hl : ¬ (put_residuals_in_logspace ∧ ∃ y ∈ y_data, y ≤ 0)) :
    (fit_model model x_data y_data parameter_guesses parameter_bounds
      residual_norm_type fit_type weights put_residuals_in_logspace
      solver).2 ≠ Except.error FitError.nonPositiveY := by
  rcases hc : checkLengths
      (relevantInputs y_data.length
        (normalizeWeights (weightsOrDefault weights y_data.length)).length
        x_data) y_data.length with _ | e1
  · rw [fit_model_of_valid _ _ _ _ _ _ _ _ _ _ hb hl hc]
    intro h
    rcases assemble_error_shape _ _ _ _ _ _ _ _ _ _ h with h' | h' | h' | h' | h' <;>
      exact FitError.noConfusion h'
  · rw [fit_model_of_checkLengths_some _ _ _ _ _ _ _ _ _ _ e1 hb hl hc]
    intro h
    obtain ⟨k, l, he, -, -⟩ := checkLengths_some_shape _ _ _ hc
    cases Except.error.inj h
    exact FitError.noConfusion he

/-- C9: with logspace requested (and the earlier bounds validation
passing), `fit_model` raises the non-positive-y validation error exactly
when some y value is ≤ 0, and it does so before problem construction (the
event trace is empty); with logspace off, that error is never raised, so
y-data of any sign is accepted by this check. -/
theorem fit_model_logspace_positivity_check :
    (∀ (model : Model) (x_data : XData) (y_data : List ℚ)
       (parameter_guesses : List (String × ℚ))
       (parameter_bounds : List (String × List (Option ℚ)))
       (residual_norm_type fit_type : String) (weights : Option (List ℚ))
       (solver : Option Solution),
       checkBounds parameter_bounds parameter_guesses = none →
       (((fit_model model x_data y_data parameter_guesses parameter_bounds
           residual_norm_type fit_type weights true solver).2 =
          Except.error FitError.nonPositiveY) ↔ ∃ y ∈ y_data, y ≤ 0) ∧
       ((fit_model model x_data y_data parameter_guesses parameter_bounds
           residual_norm_type fit_type weights true solver).2 =
          Except.error FitError.nonPositiveY →
        (fit_model model x_data y_data parameter_guesses parameter_bounds
           residual_norm_type fit_type weights true solver).1.events = [])) ∧
    (∀ (model : Model) (x_data : XData) (y_data : List ℚ)
       (parameter_guesses : List (String × ℚ))
       (parameter_bounds : List (String × List (Option ℚ)))
       (residual_norm_type fit_type : String) (weights : Option (List ℚ))
       (solver : Option Solution),
       (fit_model model x_data y_data parameter_guesses parameter_bounds
         residual_norm_type fit_type weights false solver).2 ≠
         Except.error FitError.nonPositiveY) := by
  constructor
  · intro model x_data y_data parameter_guesses parameter_bounds
      residual_norm_type fit_type weights solver hb
    by_cases hex : ∃ y ∈ y_data, y ≤ 0
    · rw [fit_model_of_logspace_nonpos _ _ _ _ _ _ _ _ _ _ hb ⟨rfl, hex⟩]
      exact ⟨⟨fun _ => hex, fun _ => rfl⟩, fun _ => rfl⟩
    · have hl : ¬ ((true : Bool) ∧ ∃ y ∈ y_data, y ≤ 0) := fun h => hex h.2
      have hne := fit_model_ne_nonPositiveY model x_data y_data
        parameter_guesses parameter_bounds residual_norm_type fit_type
        weights true solver hb hl
      exact ⟨⟨fun h => absurd h hne, fun h => absurd h hex⟩,
        fun h => absurd h hne⟩
  · intro model x_data y_data parameter_guesses parameter_bounds
      residual_norm_type fit_type weights solver
    rcases hb : checkBounds parameter_bounds parameter_guesses with _ | e0
    · exact fit_model_ne_nonPositiveY model x_data y_data parameter_guesses
        parameter_bounds residual_norm_type fit_type weights false solver hb
        (fun h => by exact absurd h.1 (by decide))
    · rw [fit_model_of_checkBounds_some _ _ _ _ _ _ _ _ _ _ e0 hb]
      intro h
      cases Except.error.inj h
      rcases checkBounds_some_shape _ _ _ hb with ⟨nm, he⟩ | he <;>
        exact FitError.noConfusion he

/-- C9 witness: concrete instances — logspace with `y = [1, -1]` raises the
error with an empty trace, and logspace off accepts the same data. -/
theorem fit_model_logspace_positivity_check_witness :
    checkBounds [] [("p", 0)] = none ∧
    (((fit_model constPairModel (XData.arr [1, 2]) [1, -1] [("p", 0)] []
        "L2" "best" none true (some solOne)).2 =
       Except.error FitError.nonPositiveY) ↔ ∃ y ∈ [(1 : ℚ), -1], y ≤ 0) ∧
    (fit_model constPairModel (XData.arr [1, 2]) [1, -1] [("p", 0)] [] "L2"
        "best" none true (some solOne)).1.events = [] ∧
    (fit_model constPairModel (XData.arr [1, 2]) [1, -1] [("p", 0)] [] "L2"
        "best" none false (some solOne)).2 ≠
      Except.error FitError.nonPositiveY := by
  have h1 := (fit_model_logspace_positivity_check.1 constPairModel
    (XData.arr [1, 2]) [1, -1] [("p", 0)] [] "L2" "best" none
    (some solOne) rfl)
  have h2 := fit_model_logspace_positivity_check.2 constPairModel
    (XData.arr [1, 2]) [1, -1] [("p", 0)] [] "L2" "best" none (some solOne)
  exact ⟨rfl, h1.1, h1.2 (h1.1.mpr ⟨-1, by simp, by norm_num⟩), h2⟩

/-- C10: `fit_model` matches fit_type case-sensitively but
residual_norm_type case-insensitively.  With inputs that reach the
configuration dispatches (validations pass, model returns an array): every
string differing from the three fit types only in letter case raises the
unknown-fit-type error, while any string whose lowercasing is "l1", "l2" or
"linf" is accepted as a residual_norm_type. -/
theorem fit_model_fit_type_case_sensitivity (model : Model) (x_data : XData)
    (y_data : List ℚ) (parameter_guesses : List (String × ℚ))
    (parameter_bounds : List (String × List (Option ℚ)))
    (weights : Option (List ℚ)) (put_residuals_in_logspace : Bool)
    (solver : Option Solution) (ys : List E)
    (hb : checkBounds parameter_bounds parameter_guesses = none)
    (hl : ¬ (put_residuals_in_logspace ∧ ∃ y ∈ y_data, y ≤ 0))
    (hc : checkLengths
      (relevantInputs y_data.length
        (normalizeWeights (weightsOrDefault weights y_data.length)).length
        x_data) y_data.length = none)
    (hm : model x_data (paramExprs parameter_guesses parameter_bounds) =
      ModelResult.arr ys) :
    (∀ residual_norm_type fit_type : String,
       (lower residual_norm_type = "l1" ∨ lower residual_norm_type = "l2" ∨
        lower residual_norm_type = "linf") →
       (lower fit_type = "best" ∨ lower fit_type = "upper bound" ∨
        lower fit_type = "lower bound") →
       fit_type ≠ "best" → fit_type ≠ "upper bound" →
       fit_type ≠ "lower bound" →
       (fit_model model x_data y_data parameter_guesses parameter_bounds
         residual_norm_type fit_type weights put_residuals_in_logspace
         solver).2 = Except.error FitError.badFitType) ∧
    (∀ residual_norm_type fit_type : String,
       (lower residual_norm_type = "l1" ∨ lower residual_norm_type = "l2" ∨
        lower residual_norm_type = "linf") →
       (fit_model model x_data y_data parameter_guesses parameter_bounds
         residual_norm_type fit_type weights put_residuals_in_logspace
         solver).2 ≠ Except.error FitError.badNormType) := by
  constructor
  · intro residual_norm_type fit_type hnorm hcase hf1 hf2 hf3
    rw [fit_model_of_valid _ _ _ _ _ _ _ _ _ _ hb hl hc,
      assemble_of_model_arr _ _ _ _ _ _ _ _ _ _ hm]
    obtain ⟨s3, hn'⟩ := applyNorm_ok_of_valid residual_norm_type
      (formResiduals put_residuals_in_logspace ys y_data).2 y_data.length
      (stateAfterModelEval parameter_guesses parameter_bounds) hnorm
    rw [hn']
    dsimp only
    rw [applyFitType_error_of_invalid _ _ _ _ hf1 hf2 hf3]
  · intro residual_norm_type fit_type hnorm
    rw [fit_model_of_valid _ _ _ _ _ _ _ _ _ _ hb hl hc,
      assemble_of_model_arr _ _ _ _ _ _ _ _ _ _ hm]
    obtain ⟨s3, hn'⟩ := applyNorm_ok_of_valid residual_norm_type
      (formResiduals put_residuals_in_logspace ys y_data).2 y_data.length
      (stateAfterModelEval parameter_guesses parameter_bounds) hnorm
    rw [hn']
    dsimp only
    rcases hf : applyFitType fit_type
        (formResiduals put_residuals_in_logspace ys y_data).1 y_data s3
      with ef | s4
    · dsimp only
      intro h
      cases Except.error.inj h
      exact FitError.noConfusion (applyFitType_error_shape _ _ _ _ _ hf)
    · dsimp only
      rcases solver with _ | f
      · dsimp only
        intro h
        cases Except.error.inj h
      · dsimp only
        exact fun h => Except.noConfusion h

/-- C10 witness: "Best" (a case variant of "best") raises the
unknown-fit-type error, while the case variant "LINF" of the norm string is
accepted. -/
theorem fit_model_fit_type_case_sensitivity_witness :
    lower "Best" = "best" ∧ ("Best" : String) ≠ "best" ∧
    lower "LINF" = "linf" ∧
    (fit_model constPairModel (XData.arr [0, 1]) [0, 1] [("p", 0)] [] "L2"
        "Best" none false (some solOne)).2 =
      Except.error FitError.badFitType ∧
    (fit_model constPairModel (XData.arr [0, 1]) [0, 1] [("p", 0)] [] "LINF"
        "best" none false (some solOne)).2 ≠
      Except.error FitError.badNormType := by
  have h := fit_model_fit_type_case_sensitivity constPairModel
    (XData.arr [0, 1]) [0, 1] [("p", 0)] [] none false (some solOne)
    [E.var 0, E.var 0] rfl (by simp) rfl rfl
  exact ⟨rfl, by decide, rfl,
    h.1 "L2" "Best" (Or.inr (Or.inl rfl)) (Or.inl rfl) (by decide) (by decide)
      (by decide),
    h.2 "LINF" "best" (Or.inr (Or.inr rfl))⟩

/-- C7: when the solve reports success but extraction of an individual
parameter value fails, `fit_model` assigns NaN to that parameter and still
returns a FittedModel carrying the remaining successfully extracted
parameter values, rather than raising. -/
theorem fit_model_nan_fallback_on_extraction_failure (model : Model)
    (x_data : XData) (y_data : List ℚ)
    (parameter_guesses : List (String × ℚ))
    (parameter_bounds : List (String × List (Option ℚ)))
    (residual_norm_type fit_type : String) (weights : Option (List ℚ))
    (put_residuals_in_logspace : Bool) (f : Solution) (ys : List E)
    (hb : checkBounds parameter_bounds parameter_guesses = none)
    (hl : ¬ (put_residuals_in_logspace ∧ ∃ y ∈ y_data, y ≤ 0))
    (hc : checkLengths
      (relevantInputs y_data.length
        (normalizeWeights (weightsOrDefault weights y_data.length)).length
        x_data) y_data.length = none)
    (hm : model x_data (paramExprs parameter_guesses parameter_bounds) =
      ModelResult.arr ys)
    (hn : lower residual_norm_type = "l1" ∨ lower residual_norm_type = "l2" ∨
      lower residual_norm_type = "linf")
    (hf : fit_type = "best" ∨ fit_type = "upper bound" ∨
      fit_type = "lower bound") :
    (fit_model model x_data y_data parameter_guesses parameter_bounds
        residual_norm_type fit_type weights put_residuals_in_logspace
        (some f)).2 =
      Except.ok
        { model := model,
          parameters := (makeParamVars parameter_guesses parameter_bounds
            OptiState.init).1.map fun p => (p.1, extractFV (f p.2)),
          x_data := x_data,
          y_data := y_data } ∧
    extractFV none = FloatVal.nan ∧
    (∀ q, extractFV (some q) = FloatVal.num q) := by
  refine ⟨?_, rfl, fun q => rfl⟩
  rw [fit_model_of_valid _ _ _ _ _ _ _ _ _ _ hb hl hc,
    assemble_of_model_arr _ _ _ _ _ _ _ _ _ _ hm]
  obtain ⟨s3, hn'⟩ := applyNorm_ok_of_valid residual_norm_type
    (formResiduals put_residuals_in_logspace ys y_data).2 y_data.length
    (stateAfterModelEval parameter_guesses parameter_bounds) hn
  rw [hn']
  dsimp only
  obtain ⟨s4, hf'⟩ := applyFitType_ok_of_valid fit_type
    (formResiduals put_residuals_in_logspace ys y_data).1 y_data s3 hf
  rw [hf']

/-- C7 witness: with parameters `m` and `b` and a solution handle that
extracts `m` to 3 but fails on `b`, the fit still returns a FittedModel
whose parameters are `m = 3` and `b = NaN`. -/
theorem fit_model_nan_fallback_on_extraction_failure_witness :
    checkBounds [] [("m", 0), ("b", 0)] = none ∧
    (fit_model constPairModel (XData.arr [0, 1]) [0, 1]
        [("m", 0), ("b", 0)] [] "L2" "best" none false (some solPartial)).2 =
      Except.ok
        { model := constPairModel,
          parameters := (makeParamVars [("m", 0), ("b", 0)] []
            OptiState.init).1.map fun p => (p.1, extractFV (solPartial p.2)),
          x_data := XData.arr [0, 1],
          y_data := [0, 1] } ∧
    (makeParamVars [("m", 0), ("b", 0)] [] OptiState.init).1.map
        (fun p => (p.1, extractFV (solPartial p.2))) =
      [("m", FloatVal.num 3), ("b", FloatVal.nan)] ∧
    solPartial 1 = none := by
  have h := fit_model_nan_fallback_on_extraction_failure constPairModel
    (XData.arr [0, 1]) [0, 1] [("m", 0), ("b", 0)] [] "L2" "best" none false
    solPartial [E.var 0, E.var 0] rfl (by simp) rfl rfl (Or.inr (Or.inl rfl))
    (Or.inl rfl)
  exact ⟨rfl, h.1, rfl, rfl⟩

/-- A dict update with a fresh key appends the entry. -/
theorem updateEntry_of_not_mem (l : List (String × ℕ)) (k : String) (v : ℕ)
    (h : ∀ p ∈ l, p.1 ≠ k) : updateEntry l k v = l ++ [(k, v)] := by
  unfold updateEntry
  rw [if_neg]
  intro hx
  obtain ⟨p, hp, hpk⟩ := List.any_eq_true.mp hx
  exact h p hp (of_decide_eq_true hpk)

/-- Folding dict updates of fresh, pairwise-distinct keys appends all the
entries in order. -/
theorem foldl_updateEntry_of_disjoint (entries : List (String × List ℚ))
    (acc : List (String × ℕ)) (hnd : (entries.map Prod.fst).Nodup)
    (hdis : ∀ p ∈ entries, ∀ q ∈ acc, q.1 ≠ p.1) :
    entries.foldl (fun a p => updateEntry a p.1 p.2.length) acc =
      acc ++ entries.map fun p => (p.1, p.2.length) := by
  induction entries generalizing acc with
  | nil => simp
  | cons hd tl ih =>
    rw [List.foldl_cons,
      updateEntry_of_not_mem _ _ _
        (fun q hq => hdis hd (List.mem_cons_self hd tl) q hq)]
    rw [List.map_cons, ih]
    · simp
    · exact (List.nodup_cons.mp hnd).2
    · intro p hp q hq
      rcases List.mem_append.mp hq with hq' | hq'
      · exact hdis p (List.mem_cons_of_mem hd hp) q hq'
      · rw [List.mem_singleton.mp hq']
        intro hcontra
        exact (List.nodup_cons.mp hnd).1
          (hcontra ▸ List.mem_map_of_mem Prod.fst hp)

/-- With collision-free x-series names, Python dict update reduces the
internal length table to the plain series table. -/
theorem relevantInputs_eq_seriesLengths (y_data w : List ℚ) (x_data : XData)
    (hx : xKeysOK x_data) :
    relevantInputs y_data.length w.length x_data =
      seriesLengths y_data w x_data := by
  cases x_data with
  | arr xs => rfl
  | dict entries =>
    obtain ⟨hnd, hres⟩ := hx
    unfold relevantInputs seriesLengths
    dsimp only
    refine foldl_updateEntry_of_disjoint entries _ hnd ?_
    intro p hp q hq
    rcases List.mem_cons.mp hq with rfl | hq'
    · exact fun hcontra => (hres p hp).1 hcontra.symm
    · rw [List.mem_singleton.mp hq']
      exact fun hcontra => (hres p hp).2 hcontra.symm

/-- C8 counterexample: an x-series literally named "weights" shadows the
weights entry of the internal length table, so a weights vector of length 3
with two datapoints raises no validation error at all — the fit proceeds
and returns a FittedModel. -/
theorem fit_model_shadowed_weights_series_no_length_error :
    ([(1 : ℚ), 2, 3]).length ≠ ([(1 : ℚ), 2]).length ∧
    (fit_model constPairModel (XData.dict [("weights", [1, 2])]) [1, 2]
        [("p", 0)] [] "L2" "best" (some [1, 2, 3]) false (some solOne)).2 =
      Except.ok
        { model := constPairModel,
          parameters := [("p", FloatVal.num 1)],
          x_data := XData.dict [("weights", [1, 2])],
          y_data := [1, 2] } :=
  ⟨by decide, rfl⟩

/-- C8 (amended): provided the bounds and logspace validations pass and no
x-series is named "y_data" or "weights" (such a name shadows that entry of
the internal length table and can hide a genuine mismatch), `fit_model`
raises a length-mismatch validation error if and only if some supplied
series has a length different from that of y_data; the raised error names
an offending series and its length, and it is raised before any
optimization work (empty event trace). -/
theorem fit_model_length_error_iff_mismatch (model : Model) (x_data : XData)
    (y_data : List ℚ) (parameter_guesses : List (String × ℚ))
    (parameter_bounds : List (String × List (Option ℚ)))
    (residual_norm_type fit_type : String) (weights : Option (List ℚ))
    (put_residuals_in_logspace : Bool) (solver : Option Solution)
    (hx : xKeysOK x_data)
    (hb : checkBounds parameter_bounds parameter_guesses = none)
    (hl : ¬ (put_residuals_in_logspace ∧ ∃ y ∈ y_data, y ≤ 0)) :
    ((∃ k l, (fit_model model x_data y_data parameter_guesses
        parameter_bounds residual_norm_type fit_type weights
        put_residuals_in_logspace solver).2 =
        Except.error (FitError.lengthMismatch k l y_data.length)) ↔
      ∃ p ∈ seriesLengths y_data (weightsOrDefault weights y_data.length)
        x_data, p.2 ≠ y_data.length) ∧
    (∀ k l m, (fit_model model x_data y_data parameter_guesses
        parameter_bounds residual_norm_type fit_type weights
        put_residuals_in_logspace solver).2 =
        Except.error (FitError.lengthMismatch k l m) →
      (k, l) ∈ seriesLengths y_data
        (weightsOrDefault weights y_data.length) x_data ∧
      l ≠ m ∧ m = y_data.length ∧
      (fit_model model x_data y_data parameter_guesses parameter_bounds
        residual_norm_type fit_type weights put_residuals_in_logspace
        solver).1.events = []) := by
  have hrel : relevantInputs y_data.length
      (normalizeWeights (weightsOrDefault weights y_data.length)).length
      x_data =
      seriesLengths y_data (weightsOrDefault weights y_data.length) x_data := by
    rw [normalizeWeights_length]
    exact relevantInputs_eq_seriesLengths _ _ _ hx
  rcases hc : checkLengths
      (relevantInputs y_data.length
        (normalizeWeights (weightsOrDefault weights y_data.length)).length
        x_data) y_data.length with _ | e1
  · rw [fit_model_of_valid _ _ _ _ _ _ _ _ _ _ hb hl hc]
    have hall := (checkLengths_eq_none _ _).mp hc
    constructor
    · constructor
      · intro ⟨k, l, hk⟩
        rcases assemble_error_shape _ _ _ _ _ _ _ _ _ _ hk
          with h' | h' | h' | h' | h' <;> exact FitError.noConfusion h'
      · intro ⟨p, hp, hne⟩
        exact absurd (hall p (hrel ▸ hp)) hne
    · intro k l m hk
      rcases assemble_error_shape _ _ _ _ _ _ _ _ _ _ hk
        with h' | h' | h' | h' | h' <;> exact FitError.noConfusion h'
  · rw [fit_model_of_checkLengths_some _ _ _ _ _ _ _ _ _ _ e1 hb hl hc]
    obtain ⟨k0, l0, he, hmem, hne⟩ := checkLengths_some_shape _ _ _ hc
    subst he
    constructor
    · constructor
      · intro ⟨k, l, hk⟩
        exact ⟨(k0, l0), hrel ▸ hmem, hne⟩
      · intro ⟨p, hp, hpne⟩
        exact ⟨k0, l0, rfl⟩
    · intro k l m hk
      obtain ⟨hkk, hll, hmm⟩ := FitError.lengthMismatch.inj (Except.error.inj hk)
      subst hkk
      subst hll
      subst hmm
      exact ⟨hrel ▸ hmem, hne, rfl, rfl⟩

/-- C8 witness: a concrete genuine mismatch — x-series of length 3 against
two y datapoints — raises the identifying validation error before any work. -/
theorem fit_model_length_error_iff_mismatch_witness :
    xKeysOK (XData.arr [1, 2, 3]) ∧
    checkBounds [] [("p", 0)] = none ∧
    (((∃ k l, (fit_model constPairModel (XData.arr [1, 2, 3]) [1, 2]
        [("p", 0)] [] "L2" "best" none false (some solOne)).2 =
        Except.error (FitError.lengthMismatch k l ([(1 : ℚ), 2]).length)) ↔
      ∃ p ∈ seriesLengths [(1 : ℚ), 2]
        (weightsOrDefault none ([(1 : ℚ), 2]).length) (XData.arr [1, 2, 3]),
        p.2 ≠ ([(1 : ℚ), 2]).length)) ∧
    (fit_model constPairModel (XData.arr [1, 2, 3]) [1, 2] [("p", 0)] []
        "L2" "best" none false (some solOne)).2 =
      Except.error (FitError.lengthMismatch "x_data" 3 2) := by
  have h := fit_model_length_error_iff_mismatch constPairModel
    (XData.arr [1, 2, 3]) [1, 2] [("p", 0)] [] "L2" "best" none false
    (some solOne) trivial rfl (by simp)
  exact ⟨trivial, rfl, h.1, rfl⟩

/-- C9 counterexample: with logspace requested, `y = [-1]` (a non-positive
value) and a bounds dict naming the unknown parameter "q", `fit_model`
raises the bounds error — which runs first — and not the non-positive-y
error, refuting the unconditional "if and only if". -/
theorem fit_model_logspace_error_preempted_by_bounds_error :
    ((-1 : ℚ) ∈ [(-1 : ℚ)] ∧ (-1 : ℚ) ≤ 0) ∧
    (fit_model constPairModel (XData.arr [0]) [-1] [("p", 0)]
        [("q", [none, none])] "L2" "best" none true (some solOne)).2 =
      Except.error (FitError.unknownBoundParam "q") ∧
    (fit_model constPairModel (XData.arr [0]) [-1] [("p", 0)]
        [("q", [none, none])] "L2" "best" none true (some solOne)).2 ≠
      Except.error FitError.nonPositiveY :=
  ⟨⟨by decide, by decide⟩, rfl, fun h => FitError.noConfusion (Except.error.inj h)⟩
